import Mathlib

/-!
Verification of the thermostat controller in `src/Thermostat.py`.

The file gives a shallow embedding of the program's core logic:

* the three-state mode machine (`off`, `heat`, `cool`) and its `cycle` event;
* the LED indicator derivation `updateLights`, modelled as the exact sequence
  of commands it issues to the two `PWMLED` objects, together with their net
  effect on the LED pair;
* the setpoint button handlers `processTempIncButton` / `processTempDecButton`;
* the status-message formatter `setupSerialOutput`, with Python's `0.1f`
  float formatting modelled as correctly-rounded one-decimal rendering with
  ties to even (exact for temperature values that are dyadic rationals, hence
  exactly representable as floats);
* the two counters of the scheduler loop `manageMyDisplay` (the 1..10
  display-alternation counter and the 1..30 report counter);
* the scheduler loop body with fallible sensor reads and serial writes,
  an uncaught exception being modelled as `Except.error`;
* an interleaving model for the shared pair (mode, setpoint) accessed by the
  button-handler thread and the display thread.

Machine temperatures are modelled as rationals, setpoints as integers
(Python's `int` is unbounded, as is `ℤ`).
-/

namespace Thermostat

/-- The `DEBUG` flag (src line 99): a static configuration constant, set to
`True` in the source. -/
def DEBUG : Bool := true

/-- The three states of the `TemperatureMachine` (src lines 236-238). -/
inductive Mode
  | off
  | heat
  | cool
  deriving DecidableEq, Repr

/-- The machine's starting state: `off = State(initial = True)` (src line 236). -/
def initialMode : Mode := Mode.off

/-- The `cycle` event (src lines 250-254):
`off.to(heat) | heat.to(cool) | cool.to(off)`. -/
def cycle : Mode → Mode
  | Mode.off => Mode.heat
  | Mode.heat => Mode.cool
  | Mode.cool => Mode.off

/-- The mode reached after `n` consecutive `cycle` events. -/
def cycleN : Nat → Mode → Mode
  | 0, m => m
  | n + 1, m => cycleN n (cycle m)

/-- The observable state of one `PWMLED`: `off()`, `on()`, or `pulse()`. -/
inductive LightState
  | off
  | on
  | pulse
  deriving DecidableEq, Repr

/-- The pair of indicator LEDs: `redLight` (GPIO 18, the hot indicator) and
`blueLight` (GPIO 23, the cold indicator), src lines 134-135. -/
structure Lights where
  red : LightState
  blue : LightState
  deriving DecidableEq, Repr

/-- A single command sent to one of the two LEDs. -/
inductive LedCmd
  | redOff
  | redOn
  | redPulse
  | blueOff
  | blueOn
  | bluePulse
  deriving DecidableEq, Repr

/-- Effect of one LED command on the LED pair. -/
def applyCmd (l : Lights) : LedCmd → Lights
  | LedCmd.redOff => { l with red := LightState.off }
  | LedCmd.redOn => { l with red := LightState.on }
  | LedCmd.redPulse => { l with red := LightState.pulse }
  | LedCmd.blueOff => { l with blue := LightState.off }
  | LedCmd.blueOn => { l with blue := LightState.on }
  | LedCmd.bluePulse => { l with blue := LightState.pulse }

/-- Effect of a sequence of LED commands, applied in order. -/
def runCmds (l : Lights) (cs : List LedCmd) : Lights :=
  cs.foldl applyCmd l

/-- `updateLights` (src lines 349-377) as the sequence of LED commands it
issues. `temp` is the Fahrenheit reading `self.getFahrenheit()`; line 351
floors it before any comparison. Lines 352-353 issue `redLight.off()` and
`blueLight.off()` unconditionally. The `match self.current_state.id:` block
(src line 363) is indented inside the `if(DEBUG):` block opened on line 356,
so the mode-based branch runs only when `debug` is true: in the `heat` state
the red LED is set `on` when `temp >= self.setPoint` and `pulse` otherwise
(src lines 364-368); in the `cool` state the blue LED is set `on` when
`temp <= self.setPoint` and `pulse` otherwise (src lines 370-374); the
wildcard case does nothing (src lines 376-377). -/
def updateLightsCmds (debug : Bool) (mode : Mode) (setPoint : ℤ) (temp : ℚ) :
    List LedCmd :=
  [LedCmd.redOff, LedCmd.blueOff] ++
    (if debug then
      match mode with
      | Mode.heat =>
          if ⌊temp⌋ ≥ setPoint then [LedCmd.redOn] else [LedCmd.redPulse]
      | Mode.cool =>
          if ⌊temp⌋ ≤ setPoint then [LedCmd.blueOn] else [LedCmd.bluePulse]
      | Mode.off => []
    else [])

/-- Net effect of one `updateLights` call on the two LEDs, starting from the
prior LED state `l`. -/
def updateLights (debug : Bool) (mode : Mode) (setPoint : ℤ) (temp : ℚ)
    (l : Lights) : Lights :=
  runCmds l (updateLightsCmds debug mode setPoint temp)

/-- `on_enter_off` (src lines 297-305): `redLight.off()` then
`blueLight.off()`, regardless of setpoint and temperature. -/
def on_enter_off (l : Lights) : Lights :=
  runCmds l [LedCmd.redOff, LedCmd.blueOff]

/-- At most one of the two LEDs is lit (that is, not `off`). -/
def atMostOneLit (l : Lights) : Prop :=
  l.red = LightState.off ∨ l.blue = LightState.off

/-- `getFahrenheit` (src lines 388-390) applied to the Celsius reading `t`
returned by `thSensor.temperature`: `(9/5) * t + 32`. -/
def getFahrenheit (t : ℚ) : ℚ :=
  9 / 5 * t + 32

/-- Round a rational to the nearest integer, ties going to the even integer.
Scaled by ten, this is the rounding CPython's correctly-rounded `0.1f`
formatting applies to a float whose value is an exact dyadic rational. -/
def roundHalfEven (q : ℚ) : ℤ :=
  if q - ⌊q⌋ < 1 / 2 then ⌊q⌋
  else if 1 / 2 < q - ⌊q⌋ then ⌊q⌋ + 1
  else if ⌊q⌋ % 2 = 0 then ⌊q⌋ else ⌊q⌋ + 1

/-- The Python format specifier `0.1f` applied to `q` (src lines 396, 423):
the value rounded to one decimal place, rendered with exactly one digit after
the decimal point. Faithful to CPython for values exactly representable as
floats; the sole divergence is that CPython prints `-0.0` for negative values
rounding to zero, which cannot arise from this thermostat's inputs. -/
def formatOneDec (q : ℚ) : String :=
  (if roundHalfEven (10 * q) < 0 then "-" else "")
    ++ toString ((roundHalfEven (10 * q)).natAbs / 10)
    ++ "." ++ toString ((roundHalfEven (10 * q)).natAbs % 10)

/-- The `current_state.id` strings of the python-statemachine states, which
are the attribute names `off`, `heat`, `cool` (src lines 236-238). -/
def stateId : Mode → String
  | Mode.off => "off"
  | Mode.heat => "heat"
  | Mode.cool => "cool"

/-- `setupSerialOutput` (src lines 395-397):
`f"{tsm.current_state.id},{self.getFahrenheit():0.1f},{self.setPoint}"`,
with `temp` the Fahrenheit reading obtained by the embedded
`self.getFahrenheit()` call. -/
def setupSerialOutput (mode : Mode) (setPoint : ℤ) (temp : ℚ) : String :=
  stateId mode ++ "," ++ formatOneDec temp ++ "," ++ toString setPoint

/-- Split a character list at commas, accumulating the current field. -/
def splitCommaAux : List Char → List Char → List String
  | [], acc => [String.mk acc.reverse]
  | c :: cs, acc =>
    if c = ',' then String.mk acc.reverse :: splitCommaAux cs []
    else splitCommaAux cs (c :: acc)

/-- Split a string at commas; used to state the field structure of the
status message. -/
def splitComma (s : String) : List String :=
  splitCommaAux s.data []

/-- Whether a string's final character is the comma delimiter. -/
def endsWithComma (s : String) : Bool :=
  s.data.getLast? == some ','

/-- The controller state a `TemperatureMachine` instance owns: the current
state of the machine, the `setPoint` attribute (src line 243, initially 72),
and the observable LED pair. -/
structure TState where
  mode : Mode
  setPoint : ℤ
  lights : Lights
  deriving DecidableEq, Repr

/-- `processTempStateButton` (src lines 312-316): sends the `cycle` event. -/
def processTempStateButton (m : Mode) : Mode :=
  cycle m

/-- `processTempIncButton` (src lines 323-328): `self.setPoint += 1`, then
`self.updateLights()`. `temp` is the fresh sensor reading that the
`updateLights` call obtains on this invocation. -/
def processTempIncButton (temp : ℚ) (s : TState) : TState :=
  { s with
    setPoint := s.setPoint + 1
    lights := updateLights DEBUG s.mode (s.setPoint + 1) temp s.lights }

/-- `processTempDecButton` (src lines 337-342): `self.setPoint -= 1`, then
`self.updateLights()`. -/
def processTempDecButton (temp : ℚ) (s : TState) : TState :=
  { s with
    setPoint := s.setPoint - 1
    lights := updateLights DEBUG s.mode (s.setPoint - 1) temp s.lights }

/-- One tick of the 30-second report logic in `manageMyDisplay`
(src lines 443-448): when `counter % 30 == 0` the status line is written to
the serial port and the counter is reset to 1, otherwise the counter is
incremented. Returns the counter for the next tick and whether this tick
transmitted. -/
def reportStep (counter : ℕ) : ℕ × Bool :=
  if counter % 30 = 0 then (1, true) else (counter + 1, false)

/-- The report logic run for `n` ticks from the initial `counter = 1`
(src line 406): the counter at the start of tick `n + 1`, paired with the
1-based indices of the ticks that transmitted. -/
def reportRun : ℕ → ℕ × List ℕ
  | 0 => (1, [])
  | n + 1 =>
    let r := reportRun n
    let s := reportStep r.1
    (s.1, if s.2 then r.2 ++ [n + 1] else r.2)

/-- Result of the display-alternation logic for one tick: the alternation
counter for the next tick, the second display line shown, and whether this
tick re-ran `updateLights`. -/
structure AltResult where
  newAlt : ℕ
  line2 : String
  resync : Bool
  deriving DecidableEq, Repr

/-- One tick of the second-display-line alternation in `manageMyDisplay`
(src lines 421-435): when `altCounter < 6` the line is
`f"T:{self.getFahrenheit():0.1f}F"` and the counter is incremented; otherwise
the line is `f"ST:{tsm.current_state.id} Set:{tsm.setPoint}F"`, the counter is
incremented, and if it then reaches 11 `updateLights` is re-run and the
counter is reset to 1. -/
def altStep (mode : Mode) (setPoint : ℤ) (temp : ℚ) (alt : ℕ) : AltResult :=
  if alt < 6 then
    { newAlt := alt + 1
      line2 := "T:" ++ formatOneDec temp ++ "F"
      resync := false }
  else if 11 ≤ alt + 1 then
    { newAlt := 1
      line2 := "ST:" ++ stateId mode ++ " Set:" ++ toString setPoint ++ "F"
      resync := true }
  else
    { newAlt := alt + 1
      line2 := "ST:" ++ stateId mode ++ " Set:" ++ toString setPoint ++ "F"
      resync := false }

/-- The alternation counter at the start of tick `n + 1`, starting from
`altCounter = 1` (src line 407). -/
def altRun (mode : Mode) (setPoint : ℤ) (temp : ℚ) : ℕ → ℕ
  | 0 => 1
  | n + 1 => (altStep mode setPoint temp (altRun mode setPoint temp n)).newAlt

/-- The two counters owned by the scheduler loop `manageMyDisplay`
(src lines 406-407), both starting at 1. -/
structure LoopState where
  alt : ℕ
  counter : ℕ
  deriving DecidableEq, Repr

/-- The external effects available to one scheduler tick: the outcome of this
tick's sensor access (`Except.error` models `thSensor.temperature` raising)
and whether the `ser.write` call succeeds. -/
structure TickIO where
  sensor : Except Unit ℚ
  serialOk : Bool

/-- One iteration of the `while not self.endDisplay:` loop body of
`manageMyDisplay` (src lines 408-449), with the sensor reads and the serial
write allowed to fail. The body contains no `try`/`except`, so an exception
raised anywhere in it is modelled by returning `Except.error`. The sensor is
read in the `T:`-line branch (src line 423, when `altCounter < 6`), inside
`updateLights` on a resync tick (src lines 434, 351), and inside
`setupSerialOutput` on a report tick (src lines 444, 396); all sensor
accesses of one tick share the outcome `io.sensor`. -/
def manageMyDisplayTick (io : TickIO) (st : LoopState) : Except Unit LoopState :=
  match
    (if st.alt < 6 then
      match io.sensor with
      | Except.error e => Except.error e
      | Except.ok _ => Except.ok (st.alt + 1)
    else if 11 ≤ st.alt + 1 then
      match io.sensor with
      | Except.error e => Except.error e
      | Except.ok _ => Except.ok 1
    else Except.ok (st.alt + 1) : Except Unit ℕ) with
  | Except.error e => Except.error e
  | Except.ok alt2 =>
    if st.counter % 30 = 0 then
      match io.sensor with
      | Except.error e => Except.error e
      | Except.ok _ =>
        if io.serialOk then Except.ok { alt := alt2, counter := 1 }
        else Except.error ()
    else Except.ok { alt := alt2, counter := st.counter + 1 }

/-- The scheduler loop run across consecutive ticks. An uncaught exception
in one tick terminates the run: no later tick executes. -/
def manageMyDisplayRun (st : LoopState) : List TickIO → Except Unit LoopState
  | [] => Except.ok st
  | io :: rest =>
    match manageMyDisplayTick io st with
    | Except.error e => Except.error e
    | Except.ok st2 => manageMyDisplayRun st2 rest

/-- A button-handler event as dispatched by gpiozero's callback thread:
`processTempStateButton` sends `cycle`, and the other two handlers adjust the
setpoint by one (src lines 312-342, 469-484). -/
inductive HEvent
  | cycleEv
  | incEv
  | decEv
  deriving DecidableEq, Repr

/-- Effect of one handler event on the shared pair (mode, setpoint). -/
def applyEvent (p : Mode × ℤ) : HEvent → Mode × ℤ
  | HEvent.cycleEv => (cycle p.1, p.2)
  | HEvent.incEv => (p.1, p.2 + 1)
  | HEvent.decEv => (p.1, p.2 - 1)

/-- The shared pair after a list of handler events has run. -/
def statesAfter (init : Mode × ℤ) (evs : List HEvent) : Mode × ℤ :=
  evs.foldl applyEvent init

/-- Every instantaneous value the shared pair takes while `evs` run,
in order, starting with the initial value. -/
def histStates (init : Mode × ℤ) : List HEvent → List (Mode × ℤ)
  | [] => [init]
  | e :: evs => init :: histStates (applyEvent init e) evs

/-- The (mode, setpoint) pair that one `setupSerialOutput` call observes
(src line 396): the f-string reads `tsm.current_state.id` first, then calls
`self.getFahrenheit()` (blocking sensor I/O), then reads `self.setPoint`.
The program takes no lock, so the handler events `mid` may run between the
two reads; `pre` are the handler events that ran before the first read. -/
def observedPair (init : Mode × ℤ) (pre mid : List HEvent) : Mode × ℤ :=
  ((statesAfter init pre).1, (statesAfter init (pre ++ mid)).2)

/-- Three `cycle` events return every mode to itself. -/
theorem cycle_cycle_cycle (m : Mode) : cycle (cycle (cycle m)) = m := by
  cases m <;> rfl

/-- `cycleN` is periodic with period three. -/
theorem cycleN_add_three (n : ℕ) (m : Mode) : cycleN (n + 3) m = cycleN n m := by
  show cycleN (n + 2 + 1) m = cycleN n m
  rw [cycleN, show n + 2 = n + 1 + 1 from rfl, cycleN, cycleN, cycle_cycle_cycle]

/-- `cycleN` on a multiple of three plus a remainder reduces to the remainder. -/
theorem cycleN_three_mul_add (q r : ℕ) (m : Mode) :
    cycleN (3 * q + r) m = cycleN r m := by
  induction q with
  | zero => norm_num
  | succ k ih =>
    have e : 3 * (k + 1) + r = 3 * k + r + 3 := by ring
    rw [e, cycleN_add_three, ih]

/-- The mode after `n` cycles is the mode after `n % 3` cycles. -/
theorem cycleN_mod (n : ℕ) (m : Mode) : cycleN n m = cycleN (n % 3) m := by
  conv_lhs => rw [show n = 3 * (n / 3) + n % 3 from (Nat.div_add_mod n 3).symm]
  rw [cycleN_three_mul_add]

/-- Claim C2: the mode state machine starts in `off`, the `cycle` event is a
total function over the three modes advancing in the fixed order
off → heat → cool → off (these three equations exhaust the transition
function, so no other edges exist), and the mode after any sequence of `n`
cycle events equals the mode advanced `n % 3` steps in that order. -/
theorem C2_cycle_state_machine (n : ℕ) (m : Mode) :
    initialMode = Mode.off
      ∧ cycle Mode.off = Mode.heat
      ∧ cycle Mode.heat = Mode.cool
      ∧ cycle Mode.cool = Mode.off
      ∧ cycleN n m = cycleN (n % 3) m :=
  ⟨rfl, rfl, rfl, rfl, cycleN_mod n m⟩

/-- Claim C1: with the source's `DEBUG = True`, `updateLights` obeys the
floor-based indicator rules. In heat mode, if `⌊temp⌋ ≥ setPoint` the red
(hot) LED is solid on and the blue (cold) LED off, otherwise the red LED
pulses and the blue LED is off; in cool mode, if `⌊temp⌋ ≤ setPoint` the blue
LED is solid on and the red LED off, otherwise the blue LED pulses and the
red LED is off — whatever the prior LED state. In particular, for heat mode
with setpoint 72: temperature 72.4 yields red on and blue off, and
temperature 71.9 yields red pulsing and blue off. -/
theorem C1_updateLights_rules (sp : ℤ) (temp : ℚ) (l : Lights) :
    (updateLights DEBUG Mode.heat sp temp l =
        if sp ≤ ⌊temp⌋ then { red := LightState.on, blue := LightState.off }
        else { red := LightState.pulse, blue := LightState.off })
      ∧ (updateLights DEBUG Mode.cool sp temp l =
        if ⌊temp⌋ ≤ sp then { red := LightState.off, blue := LightState.on }
        else { red := LightState.off, blue := LightState.pulse })
      ∧ updateLights DEBUG Mode.heat 72 (362 / 5) l =
          { red := LightState.on, blue := LightState.off }
      ∧ updateLights DEBUG Mode.heat 72 (719 / 10) l =
          { red := LightState.pulse, blue := LightState.off } := by
  have h1 : ⌊(362 / 5 : ℚ)⌋ = 72 := by norm_num [Int.floor_eq_iff]
  have h2 : ⌊(719 / 10 : ℚ)⌋ = 71 := by norm_num [Int.floor_eq_iff]
  cases l with
  | mk r b =>
    refine ⟨?_, ?_, ?_, ?_⟩
    · by_cases h : sp ≤ ⌊temp⌋ <;>
        simp [updateLights, updateLightsCmds, runCmds, applyCmd, DEBUG,
          ge_iff_le, h]
    · by_cases h : ⌊temp⌋ ≤ sp <;>
        simp [updateLights, updateLightsCmds, runCmds, applyCmd, DEBUG, h]
    · simp [updateLights, updateLightsCmds, runCmds, applyCmd, DEBUG, h1]
    · simp [updateLights, updateLightsCmds, runCmds, applyCmd, DEBUG, h2]

/-- Claim C9: because the mode-based `match` in `updateLights` is nested
inside the `if(DEBUG):` block, it executes only when `DEBUG` is enabled. For
every mode, setpoint, temperature, and prior LED state, if the debug flag is
false then `updateLights` issues exactly the two off commands and leaves both
LEDs off, so the heat and cool modes show no solid or pulsing indicator after
a resync. -/
theorem C9_debug_gates_indicator_logic (mode : Mode) (sp : ℤ) (temp : ℚ)
    (l : Lights) :
    updateLightsCmds false mode sp temp = [LedCmd.redOff, LedCmd.blueOff]
      ∧ updateLights false mode sp temp l =
          { red := LightState.off, blue := LightState.off } := by
  cases l with
  | mk r b => exact ⟨rfl, rfl⟩

/-- Claim C6: every indicator-updating operation leaves at most one LED
non-off. `updateLights` always issues its two off commands first (before any
mode-dependent command), its net result lights at most one LED, and entering
the `off` state turns both LEDs off from any prior state, regardless of
setpoint and temperature. -/
theorem C6_at_most_one_indicator (debug : Bool) (mode : Mode) (sp : ℤ)
    (temp : ℚ) (l : Lights) :
    (updateLightsCmds debug mode sp temp).take 2 = [LedCmd.redOff, LedCmd.blueOff]
      ∧ atMostOneLit (updateLights debug mode sp temp l)
      ∧ on_enter_off l = { red := LightState.off, blue := LightState.off } := by
  cases l with
  | mk r b =>
    refine ⟨rfl, ?_, rfl⟩
    cases debug <;> cases mode <;>
      simp only [updateLights, updateLightsCmds, runCmds, atMostOneLit] <;>
      split_ifs <;> simp [applyCmd]

/-- Repeated increment presses accumulate: `n` presses add `n`. -/
theorem iterate_inc_setPoint (temp : ℚ) (s : TState) (n : ℕ) :
    ((processTempIncButton temp)^[n] s).setPoint = s.setPoint + n := by
  induction n generalizing s with
  | zero => simp
  | succ k ih =>
    rw [Function.iterate_succ_apply, ih]
    simp only [processTempIncButton]
    push_cast
    ring

/-- Repeated decrement presses accumulate: `n` presses subtract `n`. -/
theorem iterate_dec_setPoint (temp : ℚ) (s : TState) (n : ℕ) :
    ((processTempDecButton temp)^[n] s).setPoint = s.setPoint - n := by
  induction n generalizing s with
  | zero => simp
  | succ k ih =>
    rw [Function.iterate_succ_apply, ih]
    simp only [processTempDecButton]
    push_cast
    ring

/-- Claim C7: for every integer setpoint, the increase handler changes the
setpoint by exactly +1 and the decrease handler by exactly -1, each followed
by re-running the indicator derivation at the new setpoint; no minimum or
maximum bound is enforced, so `n` repeated presses move the setpoint by `n`
in either direction, for every `n`. -/
theorem C7_setpoint_unbounded (temp : ℚ) (s : TState) (n : ℕ) :
    (processTempIncButton temp s).setPoint = s.setPoint + 1
      ∧ (processTempDecButton temp s).setPoint = s.setPoint - 1
      ∧ (processTempIncButton temp s).lights =
          updateLights DEBUG s.mode (s.setPoint + 1) temp s.lights
      ∧ (processTempDecButton temp s).lights =
          updateLights DEBUG s.mode (s.setPoint - 1) temp s.lights
      ∧ ((processTempIncButton temp)^[n] s).setPoint = s.setPoint + n
      ∧ ((processTempDecButton temp)^[n] s).setPoint = s.setPoint - n :=
  ⟨rfl, rfl, rfl, rfl, iterate_inc_setPoint temp s n, iterate_dec_setPoint temp s n⟩

/-- Closed form for the report counter: at the start of tick `n + 1` the
counter is `n % 30 + 1`. -/
theorem reportRun_fst (n : ℕ) : (reportRun n).1 = n % 30 + 1 := by
  induction n with
  | zero => rfl
  | succ k ih =>
    simp only [reportRun]
    rw [ih]
    unfold reportStep
    by_cases h : (k % 30 + 1) % 30 = 0
    · rw [if_pos h]
      simp only
      omega
    · rw [if_neg h]
      simp only
      omega

set_option maxRecDepth 4000 in
/-- Claim C3: the report counter ranges over 1..30; each tick increments it
unless its value is a multiple of 30 (which, within its 1..30 range, happens
exactly on the 30th tick of the window), in which case a status line is
transmitted and the counter is reset to 1. Across 90 consecutive ticks with
no failures, exactly 3 transmissions occur, at ticks 30, 60, and 90. -/
theorem C3_report_cadence (n c : ℕ) :
    (reportRun n).1 = n % 30 + 1
      ∧ 1 ≤ (reportRun n).1
      ∧ (reportRun n).1 ≤ 30
      ∧ reportStep c = (if c % 30 = 0 then (1, true) else (c + 1, false))
      ∧ (reportRun 90).2 = [30, 60, 90] := by
  have h := reportRun_fst n
  refine ⟨h, by omega, ?_, rfl, by decide⟩
  rw [h]
  omega

/-- Closed form for the display-alternation counter: at the start of tick
`n + 1` it is `n % 10 + 1`. -/
theorem altRun_closed (mode : Mode) (sp : ℤ) (temp : ℚ) (n : ℕ) :
    altRun mode sp temp n = n % 10 + 1 := by
  induction n with
  | zero => rfl
  | succ k ih =>
    simp only [altRun]
    rw [ih]
    unfold altStep
    by_cases h5 : k % 10 + 1 < 6
    · rw [if_pos h5]
      simp only
      omega
    · rw [if_neg h5]
      by_cases h9 : 11 ≤ k % 10 + 1 + 1
      · rw [if_pos h9]
        simp only
        omega
      · rw [if_neg h9]
        simp only
        omega

/-- Claim C5: in every 10-tick window the second display line is the
temperature line `T:<temp>F` for the first 5 ticks and the state line
`ST:<mode> Set:<setpoint>F` for the remaining 5; on the 10th tick of the
window the indicator derivation is re-run as a periodic resync, and after
each completed window the alternation counter is back at 1. -/
theorem C5_display_alternation (mode : Mode) (sp : ℤ) (temp : ℚ) (n : ℕ) :
    altRun mode sp temp n = n % 10 + 1
      ∧ (altStep mode sp temp (altRun mode sp temp n)).line2 =
          (if n % 10 < 5 then "T:" ++ formatOneDec temp ++ "F"
           else "ST:" ++ stateId mode ++ " Set:" ++ toString sp ++ "F")
      ∧ (altStep mode sp temp (altRun mode sp temp n)).resync =
          decide ((n + 1) % 10 = 0)
      ∧ altRun mode sp temp (10 * n) = 1 := by
  have hc := altRun_closed mode sp temp n
  refine ⟨hc, ?_, ?_, ?_⟩
  · rw [hc]
    unfold altStep
    by_cases h : n % 10 < 5
    · rw [if_pos (by omega : n % 10 + 1 < 6), if_pos h]
    · rw [if_neg (by omega : ¬n % 10 + 1 < 6), if_neg h]
      by_cases h9 : 11 ≤ n % 10 + 1 + 1
      · rw [if_pos h9]
      · rw [if_neg h9]
  · rw [hc]
    unfold altStep
    by_cases h : n % 10 < 5
    · rw [if_pos (by omega : n % 10 + 1 < 6)]
      have : (n + 1) % 10 ≠ 0 := by omega
      simp [this]
    · rw [if_neg (by omega : ¬n % 10 + 1 < 6)]
      by_cases h9 : 11 ≤ n % 10 + 1 + 1
      · rw [if_pos h9]
        have : (n + 1) % 10 = 0 := by omega
        simp [this]
      · rw [if_neg h9]
        have : (n + 1) % 10 ≠ 0 := by omega
        simp [this]
  · rw [altRun_closed]
    omega

/-- 682.5 is an exact tie, and 682 is even, so ties-to-even rounding gives
682. -/
theorem roundHalfEven_tie : roundHalfEven (2730 / 4) = 682 := by
  unfold roundHalfEven
  rw [show ⌊(2730 / 4 : ℚ)⌋ = 682 by norm_num [Int.floor_eq_iff]]
  rw [if_neg (by norm_num), if_neg (by norm_num), if_pos (by decide)]

/-- The code's one-decimal rendering of 68.25 is `68.2`. -/
theorem formatOneDec_68_25 : formatOneDec (273 / 4) = "68.2" := by
  unfold formatOneDec
  rw [show (10 : ℚ) * (273 / 4) = 2730 / 4 by norm_num, roundHalfEven_tie]
  decide

/-- The status message at mode cool, setpoint 70, temperature 68.25. -/
theorem setupSerialOutput_cool_68_25 :
    setupSerialOutput Mode.cool 70 (273 / 4) = "cool,68.2,70" := by
  unfold setupSerialOutput
  rw [formatOneDec_68_25]
  decide

/-- Claim C4 counterexample: for mode cool, temperature 68.25, setpoint 70
the code does not produce `cool,68.3,70` — Python's `0.1f` formatting rounds
the exact tie 68.25 to even, yielding `cool,68.2,70`. -/
theorem C4_counterexample :
    setupSerialOutput Mode.cool 70 (273 / 4) ≠ "cool,68.3,70" := by
  rw [setupSerialOutput_cool_68_25]
  decide

/-- Claim C4 (amended): the status message is comma-delimited text of exactly
three fields with no trailing delimiter — mode name, temperature rendered to
one decimal place, setpoint as an integer; for mode cool, temperature 68.25,
setpoint 70 the formatted message is exactly `cool,68.2,70`, the exact tie
68.25 rounding to the even digit. -/
theorem C4_amended_status_format (mode : Mode) (sp : ℤ) (temp : ℚ) :
    setupSerialOutput mode sp temp =
        stateId mode ++ "," ++ formatOneDec temp ++ "," ++ toString sp
      ∧ setupSerialOutput Mode.cool 70 (273 / 4) = "cool,68.2,70"
      ∧ splitComma (setupSerialOutput Mode.cool 70 (273 / 4)) =
          ["cool", "68.2", "70"]
      ∧ endsWithComma (setupSerialOutput Mode.cool 70 (273 / 4)) = false := by
  have h := setupSerialOutput_cool_68_25
  refine ⟨rfl, h, ?_, ?_⟩ <;> rw [h] <;> decide

/-- Claim C8 counterexample: it is not the case that every error raised
during a scheduler tick is contained within that iteration. With the loop's
initial counters (`altCounter = 1`, `counter = 1`), a failing sensor read on
the first tick makes the whole run return the error: the loop terminates and
the following tick never executes. -/
theorem C8_counterexample :
    ¬ ∀ (ios : List TickIO) (st : LoopState),
        (manageMyDisplayRun st ios).isOk = true := by
  intro h
  exact absurd
    (h [{ sensor := Except.error (), serialOk := true },
        { sensor := Except.ok 72, serialOk := true }]
      { alt := 1, counter := 1 })
    (by decide)

/-- Claim C8 (amended): errors raised during a tick are not contained — the
loop body of `manageMyDisplay` has no exception handler, so a sensor read
failure on a tick that reads the sensor, or a serial write failure on a
report tick, propagates out of the loop and terminates it; no subsequent
tick runs, whatever ticks remained. -/
theorem C8_amended_errors_terminate_loop (rest : List TickIO)
    (st1 st2 : LoopState) (temp : ℚ)
    (h1 : st1.alt < 6) (h2 : st2.counter % 30 = 0) :
    manageMyDisplayRun st1
        ({ sensor := Except.error (), serialOk := true } :: rest) =
        Except.error ()
      ∧ manageMyDisplayRun st2
        ({ sensor := Except.ok temp, serialOk := false } :: rest) =
        Except.error () := by
  constructor
  · simp [manageMyDisplayRun, manageMyDisplayTick, h1]
  · by_cases ha : st2.alt < 6
    · simp [manageMyDisplayRun, manageMyDisplayTick, ha, h2]
    · by_cases hb : 11 ≤ st2.alt + 1
      · simp [manageMyDisplayRun, manageMyDisplayTick, ha, hb, h2]
      · simp [manageMyDisplayRun, manageMyDisplayTick, ha, hb, h2]

/-- Witness for the amended C8: both failure shapes at concrete loop states
(a failing sensor read at `altCounter = 1`, and a failing serial write on a
report tick at `counter = 30`). -/
theorem C8_amended_errors_terminate_loop_witness :
    manageMyDisplayRun { alt := 1, counter := 1 }
        ({ sensor := Except.error (), serialOk := true } :: []) =
        Except.error ()
      ∧ manageMyDisplayRun { alt := 6, counter := 30 }
        ({ sensor := Except.ok 72, serialOk := false } :: []) =
        Except.error () :=
  C8_amended_errors_terminate_loop [] { alt := 1, counter := 1 }
    { alt := 6, counter := 30 } 72 (by decide) (by decide)

/-- Claim C10 counterexample: the scheduler's observation of (mode, setpoint)
is not always a pair that existed at a single instant. From the initial state
(off, 72), after one `cycle` the scheduler reads mode `heat`; if a `cycle`
and an increment run between its two reads, it then reads setpoint 73 and
observes (heat, 73), yet the shared pair only ever held (off, 72), (heat, 72),
(cool, 72), (cool, 73). -/
theorem C10_counterexample :
    ¬ ∀ (init : Mode × ℤ) (pre mid : List HEvent),
        observedPair init pre mid ∈ histStates init (pre ++ mid) := by
  intro h
  have hmem := h (Mode.off, 72) [HEvent.cycleEv] [HEvent.cycleEv, HEvent.incEv]
  revert hmem
  decide

/-- The state reached after a list of events is one of the states the pair
passes through. -/
theorem statesAfter_mem_histStates (evs : List HEvent) (init : Mode × ℤ) :
    statesAfter init evs ∈ histStates init evs := by
  induction evs generalizing init with
  | nil => simp [statesAfter, histStates]
  | cons e es ih =>
    simp only [statesAfter, histStates, List.foldl_cons]
    exact List.mem_cons_of_mem _ (ih (applyEvent init e))

/-- Claim C10 (amended): the code takes no lock, and the scheduler reads mode
and setpoint in two separate accesses; only when no handler event runs
between the two reads is the observed pair guaranteed to be a value the
shared state actually held at some instant. -/
theorem C10_amended_observation_without_interleaving (init : Mode × ℤ)
    (pre : List HEvent) :
    observedPair init pre [] ∈ histStates init pre := by
  have he : observedPair init pre [] = statesAfter init pre := by
    unfold observedPair
    rw [List.append_nil]
  rw [he]
  exact statesAfter_mem_histStates pre init

end Thermostat
